import Mathlib

/-
  Verification development for the access-token-verifier repository.

  The embedding models:
  - src/lib/AccessToken.ts            (namespace lib: value, urlClaim, verifiableClaims, verify)
  - src/algorithm/verifySolidAccessToken.ts
                                      (namespace algorithm: verifiableClaims, verifySolidAccessToken)
  - src/unnamed/part_001              (issuers: WebID dereferencing and oidcIssuer extraction)
  External collaborators (the WHATWG URL parser, the jose jwtVerify primitive, the type
  guards, the Defaults constants, the issuer cache and the replay cache) are not part of
  the given sources; they are modelled from the specification and marked as such below.
-/

/-- A JSON value as far as the token guards inspect it: either a string or anything else. -/
inductive JVal
  | jstr (s : String)
  | jother
deriving DecidableEq, Repr

/-- The decoded JSON payload of a token, restricted to the claims the code inspects.
A field is `none` when absent from the JSON object. -/
structure RawPayload where
  iss : Option JVal
  webid : Option JVal
  aud : Option JVal
  exp : Option Int
  iat : Option Int
deriving DecidableEq, Repr

/-- The decoded JOSE protected header, restricted to the algorithm field the policy inspects. -/
structure JWTHeader where
  alg : String
deriving DecidableEq, Repr

/-- Key sets are opaque handles: the core never inspects key bytes (spec section 3). -/
abbrev KeySet := String

/-- Model of a parsed WHATWG URL restricted to hierarchical URLs, the only shape the
claims exercise. Scheme and host are stored lowercased; an empty path serializes as
a single slash, reproducing the trailing-slash normalization of URL serialization.
Userinfo/port splitting, percent-encoding and dot-segment removal are not modelled. -/
structure ParsedURL where
  scheme : String
  host : String
  path : String
  rest : String
deriving DecidableEq, Repr

/-- Serialization of a parsed URL, as produced by URL#toString / URL#href. -/
def ParsedURL.toString (u : ParsedURL) : String :=
  u.scheme ++ "://" ++ u.host ++ u.path ++ u.rest

/-- Modelled from the spec: the WHATWG URL parser used via the platform `new URL`.
Parses `scheme://host[path][?query][#fragment]`, lowercasing scheme and host and
normalizing an empty path to a single slash; everything else fails (returns none),
which the code surfaces as the claim-URI parse failure. -/
def parseURL (s : String) : Option ParsedURL :=
  let cs := s.toList
  let scheme := cs.takeWhile (fun c => c ≠ ':')
  let rest1 := cs.drop scheme.length
  if scheme.length = 0 then none
  else if !(scheme.all Char.isAlpha) then none
  else match rest1 with
    | ':' :: '/' :: '/' :: r =>
      let auth := r.takeWhile (fun c => c ≠ '/' && c ≠ '?' && c ≠ '#')
      if auth.length = 0 then none
      else
        let afterAuth := r.drop auth.length
        let path := afterAuth.takeWhile (fun c => c ≠ '?' && c ≠ '#')
        let rest := afterAuth.drop path.length
        some
          { scheme := String.mk (scheme.map Char.toLower)
            host := String.mk (auth.map Char.toLower)
            path := if path.isEmpty then "/" else String.mk path
            rest := String.mk rest }
    | _ => none

/-- Splitting a character list at every occurrence of the separator, with the semantics
of JavaScript String.prototype.split for a one-character separator. -/
def splitOnChar (sep : Char) : List Char → List (List Char)
  | [] => [[]]
  | c :: cs =>
    if c = sep then [] :: splitOnChar sep cs
    else
      match splitOnChar sep cs with
      | [] => [[c]]
      | h :: t => (c :: h) :: t

/-- Model of the token.split(".") calls: the dot-separated segments of the compact
serialization. -/
def splitDots (s : String) : List String :=
  (splitOnChar '.' s.toList).map String.mk

/-- The error taxonomy of the specification (section 7), as surfaced by the code. -/
inductive VerifyError
  | malformedToken
  | invalidClaimUri
  | insecureClaimUri
  | issuerDiscoveryFailed
  | keySetRetrievalFailed
  | untrustedIssuer
  | signatureOrClaimInvalid
deriving DecidableEq, Repr

/-- The verification policy record passed to the cryptographic primitive. -/
structure VerifyPolicy where
  audience : String
  algorithms : List String
  maxTokenAge : Int
  clockTolerance : Int
deriving DecidableEq, Repr

/-- An access token as assembled by the verifier on success. -/
structure SolidAccessToken where
  header : JWTHeader
  payload : RawPayload
  signature : String
deriving DecidableEq, Repr

/-- Observable side effects of one verification run, in order of occurrence. -/
inductive Event
  | fetchIssuers (webid : String)
  | fetchKeySet (iss : String)
  | cryptoVerify (token : String) (policy : VerifyPolicy)
deriving DecidableEq, Repr

/-- Modelled from the spec: `maxAccessTokenAgeInSeconds` from lib/Defaults, the default
maximum access token age of one day. -/
def maxAccessTokenAgeInSeconds : Int := 86400

/-- Modelled from the spec: `clockToleranceInSeconds` from lib/Defaults, a single-digit
seconds clock-skew tolerance. -/
def clockToleranceInSeconds : Int := 5

/-- Modelled from the spec: `asymetricCryptographicAlgorithm` from the types module, the
explicit allow-list of asymmetric signing algorithms; symmetric (HS*) schemes are absent. -/
def asymetricCryptographicAlgorithm : List String :=
  ["ES256", "ES384", "ES512", "PS256", "PS384", "PS512",
   "RS256", "RS384", "RS512", "EdDSA"]

/-- The symmetric (shared-secret) JOSE signing schemes, for stating exclusion. -/
def symmetricAlgorithms : List String := ["HS256", "HS384", "HS512"]

/-- The environment of external collaborators a verification run consults: segment
decoders (base64url plus JSON parsing, from jose), the issuer resolver, the key-set
resolver, the signature oracle of the cryptographic primitive, and the clock. -/
structure Env where
  decodeHeader : String → Option JWTHeader
  decodePayload : String → Option RawPayload
  getIssuers : String → Except Unit (List String)
  getKeySet : ParsedURL → Except Unit KeySet
  sigValid : String → KeySet → Bool
  now : Int

/-- Modelled from the spec: the time-based claim checks of the cryptographic primitive:
iat not in the future, exp not in the past, and age bounded by maxTokenAge, each with
clock tolerance. -/
def claimsTimeOk (now iat exp maxAge tol : Int) : Bool :=
  decide (iat ≤ now + tol) && decide (now < exp + tol) && decide (now ≤ iat + maxAge + tol)

/-- Modelled from the spec: the external `verifySignedToken` primitive (jose jwtVerify,
spec section 6). Requires the three-segment compact form, decodes header and payload,
and checks the algorithm against the policy allow-list, the audience claim, the
time-based claims and the signature; any violation is the coarse signature-or-claim
failure. -/
def jwtVerify (env : Env) (token : String) (keys : KeySet) (policy : VerifyPolicy) :
    Except VerifyError (JWTHeader × RawPayload) :=
  match splitDots token with
  | [h, p, _s] =>
    match env.decodeHeader h, env.decodePayload p with
    | some hd, some pl =>
      if policy.algorithms.contains hd.alg then
        if pl.aud = some (JVal.jstr policy.audience) then
          match pl.iat, pl.exp with
          | some iat, some exp =>
            if claimsTimeOk env.now iat exp policy.maxTokenAge policy.clockTolerance then
              if env.sigValid token keys then .ok (hd, pl)
              else .error .signatureOrClaimInvalid
            else .error .signatureOrClaimInvalid
          | _, _ => .error .signatureOrClaimInvalid
        else .error .signatureOrClaimInvalid
      else .error .signatureOrClaimInvalid
    | _, _ => .error .signatureOrClaimInvalid
  | _ => .error .signatureOrClaimInvalid

/-- Modelled from the spec: the `isSolidAccessToken` / `isAccessToken` structural type
guard applied to the assembled access token: issuer and webid must be strings, and the
audience, expiry and issued-at claims must be present. -/
def isSolidAccessToken (t : SolidAccessToken) : Bool :=
  (match t.payload.iss with | some (JVal.jstr _) => true | _ => false) &&
  (match t.payload.webid with | some (JVal.jstr _) => true | _ => false) &&
  t.payload.aud.isSome && t.payload.exp.isSome && t.payload.iat.isSome

/-- The policy literal both verifiers pass to the cryptographic primitive:
audience "solid", the asymmetric allow-list, the given max age, default tolerance. -/
def accessTokenPolicy (maxAccessTokenAge : Int) : VerifyPolicy :=
  { audience := "solid"
    algorithms := asymetricCryptographicAlgorithm
    maxTokenAge := maxAccessTokenAge
    clockTolerance := clockToleranceInSeconds }

/-- Strips the DPoP or Bearer scheme prefix from the authorization header, as the
anchored regex replace in lib/AccessToken.ts (also inlined at the top of
verifySolidAccessToken.ts): case-sensitive scheme name followed by a single space;
anything else is returned unchanged. -/
def value (token : String) : String :=
  if ("DPoP ".toList).isPrefixOf token.toList then String.mk (token.toList.drop 5)
  else if ("Bearer ".toList).isPrefixOf token.toList then String.mk (token.toList.drop 7)
  else token

/-- Modelled from the spec: `verifySecureUriClaim` (spec section 4.2), the Secure-URI
Guard: accepts the secure scheme and, historically, the insecure transport scheme;
any other scheme fails with the insecure-claim-URI error. -/
def verifySecureUriClaim (uri : String) : Except VerifyError Unit :=
  match parseURL uri with
  | some u => if u.scheme = "https" || u.scheme = "http" then .ok () else .error .insecureClaimUri
  | none => .error .invalidClaimUri

/-- The issuer trust check, as in the commented block of verifySolidAccessToken.ts and
the inline check of lib/AccessToken.ts: membership of the serialized issuer claim in
the raw issuer strings returned by the resolver. -/
def verifySolidAccessTokenIssuer (issuers : List String) (iss : String) :
    Except VerifyError Unit :=
  if issuers.contains iss then .ok () else .error .untrustedIssuer

namespace algorithm

/-- Claim extraction of verifySolidAccessToken.ts: decode segment 1 of the compact
serialization, require string issuer and webid claims, and parse both as URLs. -/
def verifiableClaims (dec : String → Option RawPayload) (token : String) :
    Except VerifyError (ParsedURL × ParsedURL) :=
  match (splitDots token)[1]? with
  | none => .error .malformedToken
  | some seg =>
    match dec seg with
    | none => .error .malformedToken
    | some p =>
      match p.iss, p.webid with
      | some (JVal.jstr i), some (JVal.jstr w) =>
        match parseURL i, parseURL w with
        | some iu, some wu => .ok (iu, wu)
        | _, _ => .error .invalidClaimUri
      | _, _ => .error .malformedToken

/-- The body of verifySolidAccessToken after the scheme prefix has been stripped,
with the trace of collaborator calls it performs. -/
def verifySolidAccessTokenValue (env : Env) (accessTokenValue : String)
    (maxAccessTokenAge : Int) :
    Except VerifyError SolidAccessToken × List Event :=
  match verifiableClaims env.decodePayload accessTokenValue with
  | .error e => (.error e, [])
  | .ok (iss, webid) =>
    match verifySecureUriClaim webid.toString with
    | .error e => (.error e, [])
    | .ok () =>
      match env.getIssuers webid.toString with
      | .error _ => (.error .issuerDiscoveryFailed, [.fetchIssuers webid.toString])
      | .ok issuers =>
        match verifySolidAccessTokenIssuer issuers iss.toString with
        | .error e => (.error e, [.fetchIssuers webid.toString])
        | .ok () =>
          match verifySecureUriClaim iss.toString with
          | .error e => (.error e, [.fetchIssuers webid.toString])
          | .ok () =>
            match env.getKeySet iss with
            | .error _ =>
              (.error .keySetRetrievalFailed,
               [.fetchIssuers webid.toString, .fetchKeySet iss.toString])
            | .ok ks =>
              match jwtVerify env accessTokenValue ks (accessTokenPolicy maxAccessTokenAge) with
              | .error e =>
                (.error e,
                 [.fetchIssuers webid.toString, .fetchKeySet iss.toString,
                  .cryptoVerify accessTokenValue (accessTokenPolicy maxAccessTokenAge)])
              | .ok (hd, pl) =>
                let accessToken : SolidAccessToken :=
                  ⟨hd, pl, ((splitDots accessTokenValue)[2]?).getD ""⟩
                if isSolidAccessToken accessToken then
                  (.ok accessToken,
                   [.fetchIssuers webid.toString, .fetchKeySet iss.toString,
                    .cryptoVerify accessTokenValue (accessTokenPolicy maxAccessTokenAge)])
                else
                  (.error .malformedToken,
                   [.fetchIssuers webid.toString, .fetchKeySet iss.toString,
                    .cryptoVerify accessTokenValue (accessTokenPolicy maxAccessTokenAge)])

/-- verifySolidAccessToken: strip the scheme prefix, then run the pipeline body. -/
def verifySolidAccessToken (env : Env) (authorizationHeader : String)
    (maxAccessTokenAge : Int) :
    Except VerifyError SolidAccessToken × List Event :=
  verifySolidAccessTokenValue env (value authorizationHeader) maxAccessTokenAge

end algorithm

namespace lib

/-- The urlClaim helper of lib/AccessToken.ts: parse the claim as a URL and require
the protocol to be in the https/http protocols map; any other protocol is rejected. -/
def urlClaim (claim : String) : Except VerifyError ParsedURL :=
  match parseURL claim with
  | none => .error .invalidClaimUri
  | some u =>
    if u.scheme = "https" || u.scheme = "http" then .ok u else .error .insecureClaimUri

/-- Claim extraction of lib/AccessToken.ts: decode segment 1 of the compact
serialization, require string issuer and webid claims, and build both via urlClaim. -/
def verifiableClaims (dec : String → Option RawPayload) (token : String) :
    Except VerifyError (ParsedURL × ParsedURL) :=
  match (splitDots token)[1]? with
  | none => .error .malformedToken
  | some seg =>
    match dec seg with
    | none => .error .malformedToken
    | some p =>
      match p.iss, p.webid with
      | some (JVal.jstr i), some (JVal.jstr w) =>
        match urlClaim i, urlClaim w with
        | .ok iu, .ok wu => .ok (iu, wu)
        | .error e, _ => .error e
        | _, .error e => .error e
      | _, _ => .error .malformedToken

/-- The body of lib verify after the scheme prefix has been stripped. -/
def verifyValue (env : Env) (token : String) (maxAccessTokenAge : Int) :
    Except VerifyError SolidAccessToken × List Event :=
  match verifiableClaims env.decodePayload token with
  | .error e => (.error e, [])
  | .ok (iss, webid) =>
    match env.getIssuers webid.toString with
    | .error _ => (.error .issuerDiscoveryFailed, [.fetchIssuers webid.toString])
    | .ok issuers =>
      if issuers.contains iss.toString then
        match env.getKeySet iss with
        | .error _ =>
          (.error .keySetRetrievalFailed,
           [.fetchIssuers webid.toString, .fetchKeySet iss.toString])
        | .ok ks =>
          match jwtVerify env token ks (accessTokenPolicy maxAccessTokenAge) with
          | .error e =>
            (.error e,
             [.fetchIssuers webid.toString, .fetchKeySet iss.toString,
              .cryptoVerify token (accessTokenPolicy maxAccessTokenAge)])
          | .ok (hd, pl) =>
            let accessToken : SolidAccessToken :=
              ⟨hd, pl, ((splitDots token)[2]?).getD ""⟩
            if isSolidAccessToken accessToken then
              (.ok accessToken,
               [.fetchIssuers webid.toString, .fetchKeySet iss.toString,
                .cryptoVerify token (accessTokenPolicy maxAccessTokenAge)])
            else
              (.error .malformedToken,
               [.fetchIssuers webid.toString, .fetchKeySet iss.toString,
                .cryptoVerify token (accessTokenPolicy maxAccessTokenAge)])
      else (.error .untrustedIssuer, [.fetchIssuers webid.toString])

/-- lib verify: strip the scheme prefix, then run the pipeline body. -/
def verify (env : Env) (authorizationHeader : String) (maxAccessTokenAge : Int) :
    Except VerifyError SolidAccessToken × List Event :=
  verifyValue env (value authorizationHeader) maxAccessTokenAge

end lib

/-- Outcome of one replay-cache attempt. -/
inductive ReplayResult
  | accepted
  | replayed
deriving DecidableEq, Repr

/-- The replay cache state: recorded proof identifiers with their validity deadlines. -/
structure ReplayCache where
  entries : List (String × Int)
deriving DecidableEq, Repr

/-- Modelled from the spec: the Replay Cache checkAndRecord operation (spec section 4.7),
an atomic insert-if-absent keyed by proof identifier. An entry whose validity deadline
has passed is indistinguishable from an absent one. Concurrent execution is modelled as
an arbitrary sequential interleaving of these atomic operations. -/
def checkAndRecord (now : Int) (c : ReplayCache) (proofId : String) (validUntil : Int) :
    ReplayResult × ReplayCache :=
  if c.entries.any (fun e => (e.1 == proofId) && decide (now ≤ e.2)) then (.replayed, c)
  else (.accepted, ⟨(proofId, validUntil) :: c.entries⟩)

/-- N verification attempts presenting the same proof identifier, as one interleaving
of the atomic checkAndRecord operations on the shared cache. -/
def runAttempts (now : Int) (c : ReplayCache) (proofId : String) (validUntil : Int) :
    Nat → List ReplayResult
  | 0 => []
  | Nat.succ n =>
    (checkAndRecord now c proofId validUntil).1 ::
      runAttempts now (checkAndRecord now c proofId validUntil).2 proofId validUntil n

/-- An issuer-cache entry: identity URI, issuer set, absolute expiry timestamp. -/
structure IssuerCacheEntry where
  key : String
  val : List String
  expiry : Int
deriving DecidableEq, Repr

/-- The issuer-cache state, together with the number of underlying fetches performed. -/
structure IssuerCacheState where
  entries : List IssuerCacheEntry
  fetches : Nat
deriving DecidableEq, Repr

/-- Modelled from the spec: retrieveOidcIssuers with its cache layer (spec section 4.3):
consult the issuer cache keyed by the identity URI; on a hit within TTL return the
cached set without any fetch; on a miss fetch, store the result with the fixed TTL,
and return it. An entry is never returned past its expiry. -/
def retrieveOidcIssuers (fetch : String → List String) (ttl now : Int)
    (st : IssuerCacheState) (uri : String) : List String × IssuerCacheState :=
  match st.entries.find? (fun e => (e.key == uri) && decide (now < e.expiry)) with
  | some e => (e.val, st)
  | none => (fetch uri, ⟨⟨uri, fetch uri, now + ttl⟩ :: st.entries, st.fetches + 1⟩)

/-- Two resolutions of the same identity URI at times t1 and t2, starting from an
empty cache. -/
def resolveTwice (fetch : String → List String) (ttl t1 t2 : Int) (uri : String) :
    List String × IssuerCacheState :=
  retrieveOidcIssuers fetch ttl t2
    (retrieveOidcIssuers fetch ttl t1 ⟨[], 0⟩ uri).2 uri

/-- An RDF quad, restricted to the term values the issuers function inspects. -/
structure Quad where
  subject : String
  predicate : String
  object : String
deriving DecidableEq, Repr

/-- What the dereferenced quad stream does: either it ends after delivering its quads,
or it fails to parse and emits an error event instead of the end event. -/
inductive StreamOutcome
  | ends (quads : List Quad)
  | failsToParse
deriving DecidableEq, Repr

/-- The solid:oidcIssuer predicate IRI from the nmspc package. -/
def oidcIssuerIri : String := "http://www.w3.org/ns/solid/terms#oidcIssuer"

/-- The issuers function of src/unnamed/part_001: dereference the WebID document, import
its quad stream into a store, and collect the objects of the solid:oidcIssuer triples
whose subject is the WebID. A rejected dereference propagates through the await. The
promise wrapping the stream installs no reject handler and resolves only on the end
event, so a quad stream that fails to parse leaves the promise forever unsettled,
modelled as none. -/
def issuers (dereference : String → Except Unit StreamOutcome) (webid : ParsedURL) :
    Option (Except Unit (List String)) :=
  match dereference webid.toString with
  | .error e => some (.error e)
  | .ok (.ends quads) =>
    some (.ok ((quads.filter
      (fun q => (q.subject == webid.toString) && (q.predicate == oidcIssuerIri))).map
        Quad.object))
  | .ok .failsToParse => none

/-- The WebID of the running scenario examples. -/
def aliceProfile : ParsedURL := ⟨"https", "alice.example", "/profile", ""⟩

/-- A payload whose claims all satisfy the verification policy. -/
def payloadA : RawPayload :=
  ⟨some (JVal.jstr "https://idp.example/"), some (JVal.jstr "https://alice.example/profile"),
   some (JVal.jstr "solid"), some 2000, some 1000⟩

/-- A fully accepting environment for the happy-path witness. -/
def envA : Env :=
  { decodeHeader := fun s => if s = "hdr" then some ⟨"RS256"⟩ else none
    decodePayload := fun s => if s = "pay" then some payloadA else none
    getIssuers := fun _ => .ok ["https://idp.example/"]
    getKeySet := fun _ => .ok "keys"
    sigValid := fun _ _ => true
    now := 1000 }

/-- An environment whose issuer resolver does not endorse the token issuer. -/
def envC1 : Env :=
  { decodeHeader := fun s => if s = "hdr" then some ⟨"RS256"⟩ else none
    decodePayload := fun s => if s = "pay" then some payloadA else none
    getIssuers := fun _ => .ok ["https://other.example/"]
    getKeySet := fun _ => .ok "keys"
    sigValid := fun _ _ => true
    now := 1000 }

/-- An environment presenting a symmetric header algorithm with a valid signature oracle. -/
def envC3 : Env :=
  { decodeHeader := fun s => if s = "hdr" then some ⟨"HS256"⟩ else none
    decodePayload := fun s => if s = "pay" then some payloadA else none
    getIssuers := fun _ => .ok ["https://idp.example/"]
    getKeySet := fun _ => .ok "keys"
    sigValid := fun _ _ => true
    now := 1000 }

/-- A payload whose issuer claim uses an insecurely schemed URI. -/
def payloadC6 : RawPayload :=
  ⟨some (JVal.jstr "ftp://idp.example/"), some (JVal.jstr "https://alice.example/profile"),
   some (JVal.jstr "solid"), some 2000, some 1000⟩

/-- An environment whose issuer resolver endorses the insecurely schemed issuer. -/
def envC6 : Env :=
  { decodeHeader := fun s => if s = "hdr" then some ⟨"RS256"⟩ else none
    decodePayload := fun s => if s = "pay6" then some payloadC6 else none
    getIssuers := fun _ => .ok ["ftp://idp.example/"]
    getKeySet := fun _ => .ok "keys"
    sigValid := fun _ _ => true
    now := 1000 }

/-- A payload whose webid claim uses an insecurely schemed URI. -/
def payloadC6w : RawPayload :=
  ⟨some (JVal.jstr "https://idp.example/"), some (JVal.jstr "ftp://alice.example/profile"),
   some (JVal.jstr "solid"), some 2000, some 1000⟩

/-- An environment delivering the insecurely schemed webid payload. -/
def envC6w : Env :=
  { decodeHeader := fun s => if s = "hdr" then some ⟨"RS256"⟩ else none
    decodePayload := fun s => if s = "pay6" then some payloadC6w else none
    getIssuers := fun _ => .ok ["https://idp.example/"]
    getKeySet := fun _ => .ok "keys"
    sigValid := fun _ _ => true
    now := 1000 }

/-- A well-formed payload used by the segment-count counterexample. -/
def payloadC7 : RawPayload :=
  ⟨some (JVal.jstr "https://idp.example/"), some (JVal.jstr "https://alice.example/profile"),
   some (JVal.jstr "solid"), some 2000, some 1000⟩

/-- A segment decoder recognizing exactly the payload segment of the counterexample. -/
def decodeC7 : String → Option RawPayload :=
  fun s => if s = "PAYLOAD" then some payloadC7 else none

/-- A segment decoder that fails on every segment. -/
def decodeNone : String → Option RawPayload := fun _ => none

/-- A segment decoder yielding a payload lacking the required claims. -/
def decodeEmptyPayload : String → Option RawPayload :=
  fun _ => some ⟨none, none, none, none, none⟩

/-- A segment decoder yielding string claims that fail URI parsing. -/
def decodeBadUri : String → Option RawPayload :=
  fun _ => some ⟨some (JVal.jstr "nourl"), some (JVal.jstr "https://alice.example/profile"),
    some (JVal.jstr "solid"), some 2000, some 1000⟩

/-- An inert environment for the scheme-stripping witness. -/
def env9 : Env :=
  ⟨fun _ => none, fun _ => none, fun _ => .error (), fun _ => .error (), fun _ _ => false, 0⟩

/-- A constant underlying fetch for the issuer-cache witness. -/
def fetch5 : String → List String := fun _ => ["https://idp.example/"]

/-! Helper lemmas shared by several claims. -/

lemma algorithm_trace_policy (env : Env) (tval : String) (a : Int) (t : String)
    (pol : VerifyPolicy)
    (hmem : Event.cryptoVerify t pol ∈ (algorithm.verifySolidAccessTokenValue env tval a).2) :
    pol = accessTokenPolicy a := by
  revert hmem
  unfold algorithm.verifySolidAccessTokenValue
  repeat' split
  all_goals intro hmem
  all_goals try simp_all
  all_goals split at hmem <;> simp_all

lemma lib_trace_policy (env : Env) (tval : String) (a : Int) (t : String)
    (pol : VerifyPolicy)
    (hmem : Event.cryptoVerify t pol ∈ (lib.verifyValue env tval a).2) :
    pol = accessTokenPolicy a := by
  revert hmem
  unfold lib.verifyValue
  repeat' split
  all_goals intro hmem
  all_goals try simp_all
  all_goals split at hmem <;> simp_all

lemma symmetric_not_allowed (s : String)
    (hs : symmetricAlgorithms.contains s = true) :
    asymetricCryptographicAlgorithm.contains s = false := by
  have hmem : s ∈ symmetricAlgorithms := List.mem_of_elem_eq_true hs
  fin_cases hmem <;> rfl

/-! C8 -/

/-- C8: the claim says a network or parse error during issuer discovery propagates as a
hard IssuerDiscoveryFailed failure to the caller. The code is wrong for parse errors:
the promise in the issuers function installs no reject handler and resolves only on the
end event of the quad stream, so when the stream fails to parse the promise never
settles (result none) and no failure reaches the caller; a rejected dereference, by
contrast, does propagate. -/
theorem issuers_parse_error_never_settles :
    issuers (fun _ => Except.ok StreamOutcome.failsToParse) aliceProfile = none ∧
    issuers (fun _ => Except.error ()) aliceProfile = some (Except.error ()) :=
  ⟨rfl, rfl⟩

/-! C9 -/

/-- C9: for every authorization header that does not begin with exactly the prefix
"Bearer " or "DPoP " (case-sensitive, single space), the scheme-stripping step returns
the string unchanged, and both verifiers proceed treating the entire header value as
the compact token: an absent or unrecognized scheme is not itself rejected. -/
theorem value_unrecognized_scheme_unchanged (s : String) (a : Int) (env : Env)
    (h1 : ("DPoP ".toList).isPrefixOf s.toList = false)
    (h2 : ("Bearer ".toList).isPrefixOf s.toList = false) :
    value s = s ∧
    algorithm.verifySolidAccessToken env s a = algorithm.verifySolidAccessTokenValue env s a ∧
    lib.verify env s a = lib.verifyValue env s a := by
  have hv : value s = s := by
    unfold value
    rw [h1, h2]
    simp
  exact ⟨hv, by simp [algorithm.verifySolidAccessToken, hv], by simp [lib.verify, hv]⟩

/-- Witness for C9 at the concrete header "abc.def.ghi". -/
theorem value_unrecognized_scheme_unchanged_witness :
    value "abc.def.ghi" = "abc.def.ghi" ∧
    algorithm.verifySolidAccessToken env9 "abc.def.ghi" 86400 =
      algorithm.verifySolidAccessTokenValue env9 "abc.def.ghi" 86400 ∧
    lib.verify env9 "abc.def.ghi" 86400 = lib.verifyValue env9 "abc.def.ghi" 86400 :=
  value_unrecognized_scheme_unchanged "abc.def.ghi" 86400 env9 rfl rfl

/-! C10 -/

/-- C10: the issuer trust check passes if and only if the WHATWG-URL serialization of
the token issuer claim is string-equal to one of the raw issuer strings returned by the
resolver; serializing the origin-only URL https://idp.example appends a trailing slash,
so an endorsed issuer listed without the trailing slash fails the check. -/
theorem issuer_check_string_equality :
    (∀ (l : List String) (u : ParsedURL),
        verifySolidAccessTokenIssuer l u.toString = Except.ok () ↔
          l.contains u.toString = true) ∧
    parseURL "https://idp.example" = some ⟨"https", "idp.example", "/", ""⟩ ∧
    ParsedURL.toString ⟨"https", "idp.example", "/", ""⟩ = "https://idp.example/" ∧
    verifySolidAccessTokenIssuer ["https://idp.example"]
        (ParsedURL.toString ⟨"https", "idp.example", "/", ""⟩) =
      Except.error VerifyError.untrustedIssuer := by
  refine ⟨?_, rfl, rfl, rfl⟩
  intro l u
  cases hc : l.contains u.toString
  · rw [verifySolidAccessTokenIssuer, hc]; simp
  · rw [verifySolidAccessTokenIssuer, hc]; simp

/-- Witness for C10: the trust check accepts an exact serialized match. -/
theorem issuer_check_string_equality_witness :
    verifySolidAccessTokenIssuer ["https://x/"]
        (ParsedURL.toString ⟨"https", "x", "/", ""⟩) = Except.ok () :=
  (issuer_check_string_equality.1 ["https://x/"] ⟨"https", "x", "/", ""⟩).mpr rfl

/-! C7 -/

/-- C7 counterexample: claim extraction does not fail on a wrong segment count. A
compact serialization with four segments whose second segment decodes to a valid
payload passes claim extraction successfully. -/
theorem verifiable_claims_ignores_segment_count :
    (splitDots "h.PAYLOAD.sig.extra").length ≠ 3 ∧
    algorithm.verifiableClaims decodeC7 "h.PAYLOAD.sig.extra" =
      Except.ok (⟨"https", "idp.example", "/", ""⟩,
                 ⟨"https", "alice.example", "/profile", ""⟩) :=
  ⟨by decide, rfl⟩

/-- C7 amended: claim extraction fails with MalformedToken when the payload segment
(the second dot-separated segment) is absent, when it fails base64/JSON decoding, or
when the decoded payload lacks issuer or webid as strings; it fails with
InvalidClaimUri when issuer or webid fails URI parsing. The total segment count is
never checked. -/
theorem verifiable_claims_failure_cases (dec : String → Option RawPayload)
    (token : String) :
    ((splitDots token)[1]? = none →
      algorithm.verifiableClaims dec token = Except.error VerifyError.malformedToken) ∧
    (∀ seg, (splitDots token)[1]? = some seg → dec seg = none →
      algorithm.verifiableClaims dec token = Except.error VerifyError.malformedToken) ∧
    (∀ seg p, (splitDots token)[1]? = some seg → dec seg = some p →
      ((∀ s, p.iss ≠ some (JVal.jstr s)) ∨ (∀ s, p.webid ≠ some (JVal.jstr s))) →
      algorithm.verifiableClaims dec token = Except.error VerifyError.malformedToken) ∧
    (∀ seg p i w, (splitDots token)[1]? = some seg → dec seg = some p →
      p.iss = some (JVal.jstr i) → p.webid = some (JVal.jstr w) →
      (parseURL i = none ∨ parseURL w = none) →
      algorithm.verifiableClaims dec token = Except.error VerifyError.invalidClaimUri) := by
  refine ⟨?_, ?_, ?_, ?_⟩
  · intro hnone
    simp [algorithm.verifiableClaims, hnone]
  · intro seg hseg hdec
    simp [algorithm.verifiableClaims, hseg, hdec]
  · intro seg p hseg hdec hbad
    cases hi : p.iss with
    | none => simp [algorithm.verifiableClaims, hseg, hdec, hi]
    | some v1 =>
      cases v1 with
      | jother => simp [algorithm.verifiableClaims, hseg, hdec, hi]
      | jstr s1 =>
        cases hw : p.webid with
        | none => simp [algorithm.verifiableClaims, hseg, hdec, hi, hw]
        | some v2 =>
          cases v2 with
          | jother => simp [algorithm.verifiableClaims, hseg, hdec, hi, hw]
          | jstr s2 =>
            rcases hbad with hb | hb
            · exact absurd hi (hb s1)
            · exact absurd hw (hb s2)
  · intro seg p i w hseg hdec hi hw hparse
    rcases hparse with hp | hp
    · simp [algorithm.verifiableClaims, hseg, hdec, hi, hw, hp]
    · cases hq : parseURL i with
      | none => simp [algorithm.verifiableClaims, hseg, hdec, hi, hw, hq]
      | some iu => simp [algorithm.verifiableClaims, hseg, hdec, hi, hw, hq, hp]

/-- Witness for C7 amended at concrete inputs exercising all four failure cases. -/
theorem verifiable_claims_failure_cases_witness :
    algorithm.verifiableClaims decodeNone "x" = Except.error VerifyError.malformedToken ∧
    algorithm.verifiableClaims decodeNone "a.b" = Except.error VerifyError.malformedToken ∧
    algorithm.verifiableClaims decodeEmptyPayload "a.b" =
      Except.error VerifyError.malformedToken ∧
    algorithm.verifiableClaims decodeBadUri "a.b" =
      Except.error VerifyError.invalidClaimUri :=
  ⟨(verifiable_claims_failure_cases decodeNone "x").1 rfl,
   (verifiable_claims_failure_cases decodeNone "a.b").2.1 "b" rfl rfl,
   (verifiable_claims_failure_cases decodeEmptyPayload "a.b").2.2.1 "b"
     ⟨none, none, none, none, none⟩ rfl rfl
     (Or.inl (fun _ hcontr => Option.noConfusion hcontr)),
   (verifiable_claims_failure_cases decodeBadUri "a.b").2.2.2 "b"
     ⟨some (JVal.jstr "nourl"), some (JVal.jstr "https://alice.example/profile"),
      some (JVal.jstr "solid"), some 2000, some 1000⟩
     "nourl" "https://alice.example/profile" rfl rfl rfl rfl (Or.inl rfl)⟩

/-! C4 -/

lemma runAttempts_after_record (now : Int) (es : List (String × Int)) (p : String)
    (vu : Int) (hwin : now ≤ vu) :
    ∀ n, runAttempts now ⟨(p, vu) :: es⟩ p vu n =
      List.replicate n ReplayResult.replayed := by
  intro n
  induction n with
  | zero => rfl
  | succ n ih =>
    have hany : (((p, vu) :: es).any (fun e => (e.1 == p) && decide (now ≤ e.2))) = true := by
      simp [hwin]
    simp [runAttempts, checkAndRecord, hany, ih, List.replicate_succ]

/-- C4: of N attempts presenting the same proof identifier within its validity window
(modelled as a sequential interleaving of the atomic checkAndRecord operations),
exactly one observes accepted and the remaining N-1 observe replayed. -/
theorem replay_exactly_one_accepted (now : Int) (c : ReplayCache) (p : String)
    (vu : Int) (n : Nat) (hn : 1 ≤ n)
    (hfresh : c.entries.any (fun e => (e.1 == p) && decide (now ≤ e.2)) = false)
    (hwin : now ≤ vu) :
    (runAttempts now c p vu n).count ReplayResult.accepted = 1 ∧
    (runAttempts now c p vu n).count ReplayResult.replayed = n - 1 ∧
    (runAttempts now c p vu n).length = n := by
  obtain ⟨m, rfl⟩ : ∃ m, n = m + 1 := ⟨n - 1, (Nat.succ_pred_eq_of_pos hn).symm⟩
  have h1 : runAttempts now c p vu (m + 1) =
      ReplayResult.accepted :: List.replicate m ReplayResult.replayed := by
    simp [runAttempts, checkAndRecord, hfresh,
      runAttempts_after_record now c.entries p vu hwin m]
  rw [h1]
  refine ⟨?_, ?_, ?_⟩ <;> simp [List.count_cons, List.count_replicate]

/-- Witness for C4 at three attempts on a fresh cache. -/
theorem replay_exactly_one_accepted_witness :
    (runAttempts 0 ⟨[]⟩ "proof-id" 60 3).count ReplayResult.accepted = 1 ∧
    (runAttempts 0 ⟨[]⟩ "proof-id" 60 3).count ReplayResult.replayed = 2 ∧
    (runAttempts 0 ⟨[]⟩ "proof-id" 60 3).length = 3 :=
  replay_exactly_one_accepted 0 ⟨[]⟩ "proof-id" 60 3 (by decide) rfl (by decide)

/-! C5 -/

/-- C5: resolving the same identity twice within the cache TTL performs exactly one
underlying fetch, the second call being served from the cache; resolving again after
TTL expiry performs a second fetch. -/
theorem issuer_cache_single_fetch (fetch : String → List String) (ttl t1 t2 : Int)
    (uri : String) :
    (t2 < t1 + ttl →
      (resolveTwice fetch ttl t1 t2 uri).2.fetches = 1 ∧
      (resolveTwice fetch ttl t1 t2 uri).1 = fetch uri) ∧
    (t1 + ttl ≤ t2 → (resolveTwice fetch ttl t1 t2 uri).2.fetches = 2) := by
  constructor
  · intro hin
    constructor <;> simp [resolveTwice, retrieveOidcIssuers, hin]
  · intro hout
    have hnot : ¬ (t2 < t1 + ttl) := not_lt.mpr hout
    simp [resolveTwice, retrieveOidcIssuers, hnot]

/-- Witness for C5 at a TTL of 100 with a second resolution inside and outside it. -/
theorem issuer_cache_single_fetch_witness :
    ((resolveTwice fetch5 100 0 50 "https://alice.example/profile").2.fetches = 1 ∧
     (resolveTwice fetch5 100 0 50 "https://alice.example/profile").1 =
       fetch5 "https://alice.example/profile") ∧
    (resolveTwice fetch5 100 0 200 "https://alice.example/profile").2.fetches = 2 :=
  ⟨(issuer_cache_single_fetch fetch5 100 0 50 "https://alice.example/profile").1
      (by decide),
   (issuer_cache_single_fetch fetch5 100 0 200 "https://alice.example/profile").2
      (by decide)⟩

/-! C1 -/

/-- C1: when the serialized issuer claim is not a member of the issuer set returned by
the resolver for the webid claim, both verifiers fail with the UntrustedIssuer error
(SolidIdentityInvalidIssuerClaim) and the cryptographic verification step is never
invoked, regardless of signature validity. -/
theorem untrusted_issuer_rejected_before_crypto
    (env : Env) (h : String) (a : Int) (seg si sw : String) (p : RawPayload)
    (iu wu : ParsedURL) (l : List String)
    (hseg : (splitDots (value h))[1]? = some seg)
    (hdec : env.decodePayload seg = some p)
    (hiss : p.iss = some (JVal.jstr si))
    (hwebid : p.webid = some (JVal.jstr sw))
    (hpi : parseURL si = some iu)
    (hpw : parseURL sw = some wu)
    (hgw : verifySecureUriClaim wu.toString = Except.ok ())
    (hsi : (iu.scheme = "https" || iu.scheme = "http") = true)
    (hsw : (wu.scheme = "https" || wu.scheme = "http") = true)
    (hres : env.getIssuers wu.toString = Except.ok l)
    (hnot : l.contains iu.toString = false) :
    algorithm.verifySolidAccessToken env h a =
      (Except.error VerifyError.untrustedIssuer, [Event.fetchIssuers wu.toString]) ∧
    lib.verify env h a =
      (Except.error VerifyError.untrustedIssuer, [Event.fetchIssuers wu.toString]) ∧
    (∀ t pol, Event.cryptoVerify t pol ∉ (algorithm.verifySolidAccessToken env h a).2) ∧
    (∀ t pol, Event.cryptoVerify t pol ∉ (lib.verify env h a).2) := by
  have hnot2 : iu.toString ∉ l := by simpa using hnot
  have halg : algorithm.verifySolidAccessToken env h a =
      (Except.error VerifyError.untrustedIssuer, [Event.fetchIssuers wu.toString]) := by
    simp [algorithm.verifySolidAccessToken, algorithm.verifySolidAccessTokenValue,
      algorithm.verifiableClaims, verifySolidAccessTokenIssuer, hseg, hdec, hiss,
      hwebid, hpi, hpw, hgw, hres, hnot2]
  have hlib : lib.verify env h a =
      (Except.error VerifyError.untrustedIssuer, [Event.fetchIssuers wu.toString]) := by
    simp [lib.verify, lib.verifyValue, lib.verifiableClaims, lib.urlClaim, hseg, hdec,
      hiss, hwebid, hpi, hpw, hsi, hsw, hres, hnot2]
  refine ⟨halg, hlib, ?_, ?_⟩
  · intro t pol
    rw [halg]
    simp
  · intro t pol
    rw [hlib]
    simp

/-- Witness for C1 at a resolver that endorses a different issuer. -/
theorem untrusted_issuer_rejected_before_crypto_witness :
    algorithm.verifySolidAccessToken envC1 "Bearer hdr.pay.sig" 86400 =
      (Except.error VerifyError.untrustedIssuer,
       [Event.fetchIssuers "https://alice.example/profile"]) ∧
    lib.verify envC1 "Bearer hdr.pay.sig" 86400 =
      (Except.error VerifyError.untrustedIssuer,
       [Event.fetchIssuers "https://alice.example/profile"]) ∧
    (∀ t pol, Event.cryptoVerify t pol ∉
      (algorithm.verifySolidAccessToken envC1 "Bearer hdr.pay.sig" 86400).2) ∧
    (∀ t pol, Event.cryptoVerify t pol ∉
      (lib.verify envC1 "Bearer hdr.pay.sig" 86400).2) :=
  untrusted_issuer_rejected_before_crypto envC1 "Bearer hdr.pay.sig" 86400 "pay"
    "https://idp.example/" "https://alice.example/profile" payloadA
    ⟨"https", "idp.example", "/", ""⟩ ⟨"https", "alice.example", "/profile", ""⟩
    ["https://other.example/"] rfl rfl rfl rfl rfl rfl rfl rfl rfl rfl rfl

/-! C6 -/

/-- C6 counterexample: a token whose issuer claim uses the insecurely schemed URI
ftp://idp.example/ and whose issuer passes the trust check is rejected with
InsecureClaimUri only AFTER issuer resolution: the trace of the rejecting run contains
the issuer fetch, refuting that such a token is rejected without any issuer
resolution. -/
theorem issuer_guard_after_resolution_cex :
    algorithm.verifySolidAccessToken envC6 "Bearer hdr.pay6.sig" 86400 =
      (Except.error VerifyError.insecureClaimUri,
       [Event.fetchIssuers "https://alice.example/profile"]) ∧
    Event.fetchIssuers "https://alice.example/profile" ∈
      (algorithm.verifySolidAccessToken envC6 "Bearer hdr.pay6.sig" 86400).2 := by
  refine ⟨rfl, ?_⟩
  have htr : (algorithm.verifySolidAccessToken envC6 "Bearer hdr.pay6.sig" 86400).2 =
      [Event.fetchIssuers "https://alice.example/profile"] := rfl
  rw [htr]
  exact List.mem_singleton.mpr rfl

/-- C6 amended: the Secure-URI Guard is applied to the webid URI before issuer
resolution (a failing webid guard rejects with no resolution at all), but to the
issuer URI only after issuer resolution and the issuer trust check, so a token with
an insecurely-schemed issuer URI whose issuer passes the trust check is rejected only
after issuer resolution has been performed. -/
theorem issuer_guard_after_resolution
    (env : Env) (h : String) (a : Int) (seg si sw : String) (p : RawPayload)
    (iu wu : ParsedURL) (l : List String) (e : VerifyError)
    (hseg : (splitDots (value h))[1]? = some seg)
    (hdec : env.decodePayload seg = some p)
    (hiss : p.iss = some (JVal.jstr si))
    (hwebid : p.webid = some (JVal.jstr sw))
    (hpi : parseURL si = some iu)
    (hpw : parseURL sw = some wu) :
    (verifySecureUriClaim wu.toString = Except.error e →
      algorithm.verifySolidAccessToken env h a = (Except.error e, [])) ∧
    (verifySecureUriClaim wu.toString = Except.ok () →
      env.getIssuers wu.toString = Except.ok l →
      l.contains iu.toString = true →
      verifySecureUriClaim iu.toString = Except.error e →
      algorithm.verifySolidAccessToken env h a =
        (Except.error e, [Event.fetchIssuers wu.toString])) := by
  constructor
  · intro hgw
    simp [algorithm.verifySolidAccessToken, algorithm.verifySolidAccessTokenValue,
      algorithm.verifiableClaims, hseg, hdec, hiss, hwebid, hpi, hpw, hgw]
  · intro hgw hres hmem hgi
    have hmem2 : iu.toString ∈ l := by simpa using hmem
    simp [algorithm.verifySolidAccessToken, algorithm.verifySolidAccessTokenValue,
      algorithm.verifiableClaims, verifySolidAccessTokenIssuer, hseg, hdec, hiss,
      hwebid, hpi, hpw, hgw, hres, hmem2, hgi]

/-- Witness for C6 amended: a failing webid guard rejects with an empty trace, while a
failing issuer guard rejects with the issuer fetch already performed. -/
theorem issuer_guard_after_resolution_witness :
    algorithm.verifySolidAccessToken envC6w "Bearer hdr.pay6.sig" 86400 =
      (Except.error VerifyError.insecureClaimUri, []) ∧
    algorithm.verifySolidAccessToken envC6 "Bearer hdr.pay6.sig" 86400 =
      (Except.error VerifyError.insecureClaimUri,
       [Event.fetchIssuers "https://alice.example/profile"]) :=
  ⟨(issuer_guard_after_resolution envC6w "Bearer hdr.pay6.sig" 86400 "pay6"
      "https://idp.example/" "ftp://alice.example/profile" payloadC6w
      ⟨"https", "idp.example", "/", ""⟩ ⟨"ftp", "alice.example", "/profile", ""⟩
      [] VerifyError.insecureClaimUri rfl rfl rfl rfl rfl rfl).1 rfl,
   (issuer_guard_after_resolution envC6 "Bearer hdr.pay6.sig" 86400 "pay6"
      "ftp://idp.example/" "https://alice.example/profile" payloadC6
      ⟨"ftp", "idp.example", "/", ""⟩ ⟨"https", "alice.example", "/profile", ""⟩
      ["ftp://idp.example/"] VerifyError.insecureClaimUri rfl rfl rfl rfl rfl rfl).2
      rfl rfl rfl rfl⟩

/-! C2 -/

/-- C2: a well-formed token whose issuer is endorsed by the identity and whose
signature and claims satisfy the policy (audience solid, asymmetric algorithm
allow-list, time bounds, valid signature) verifies successfully in both verifiers,
returning an access token whose payload carries the webid claimed in the token. -/
theorem valid_token_returns_claimed_webid
    (env : Env) (h : String) (a : Int) (s0 seg s2 si sw : String) (p : RawPayload)
    (iu wu : ParsedURL) (l : List String) (hd : JWTHeader) (ks : KeySet)
    (iatv expv : Int)
    (hsplit : splitDots (value h) = [s0, seg, s2])
    (hdec : env.decodePayload seg = some p)
    (hiss : p.iss = some (JVal.jstr si))
    (hwebid : p.webid = some (JVal.jstr sw))
    (hpi : parseURL si = some iu)
    (hpw : parseURL sw = some wu)
    (hgw : verifySecureUriClaim wu.toString = Except.ok ())
    (hgi : verifySecureUriClaim iu.toString = Except.ok ())
    (hsi : (iu.scheme = "https" || iu.scheme = "http") = true)
    (hsw : (wu.scheme = "https" || wu.scheme = "http") = true)
    (hres : env.getIssuers wu.toString = Except.ok l)
    (hmem : l.contains iu.toString = true)
    (hks : env.getKeySet iu = Except.ok ks)
    (hhd : env.decodeHeader s0 = some hd)
    (halg : asymetricCryptographicAlgorithm.contains hd.alg = true)
    (haud : p.aud = some (JVal.jstr "solid"))
    (hiat : p.iat = some iatv)
    (hexp : p.exp = some expv)
    (htime : claimsTimeOk env.now iatv expv a clockToleranceInSeconds = true)
    (hsig : env.sigValid (value h) ks = true) :
    (algorithm.verifySolidAccessToken env h a).1 = Except.ok ⟨hd, p, s2⟩ ∧
    (lib.verify env h a).1 = Except.ok ⟨hd, p, s2⟩ ∧
    p.webid = some (JVal.jstr sw) := by
  have hseg : (splitDots (value h))[1]? = some seg := by rw [hsplit]; rfl
  have hmem2 : iu.toString ∈ l := by simpa using hmem
  have halg2 : hd.alg ∈ asymetricCryptographicAlgorithm := by simpa using halg
  refine ⟨?_, ?_, hwebid⟩
  · simp [algorithm.verifySolidAccessToken, algorithm.verifySolidAccessTokenValue,
      algorithm.verifiableClaims, verifySolidAccessTokenIssuer, jwtVerify,
      isSolidAccessToken, accessTokenPolicy, hseg, hsplit, hdec, hiss, hwebid, hpi,
      hpw, hgw, hgi, hres, hmem2, hks, hhd, halg2, haud, hiat, hexp, htime, hsig]
  · simp [lib.verify, lib.verifyValue, lib.verifiableClaims, lib.urlClaim, jwtVerify,
      isSolidAccessToken, accessTokenPolicy, hseg, hsplit, hdec, hiss, hwebid, hpi,
      hpw, hsi, hsw, hres, hmem2, hks, hhd, halg2, haud, hiat, hexp, htime, hsig]

/-- Witness for C2 at a fully accepting concrete environment and token. -/
theorem valid_token_returns_claimed_webid_witness :
    (algorithm.verifySolidAccessToken envA "DPoP hdr.pay.sig" 86400).1 =
      Except.ok ⟨⟨"RS256"⟩, payloadA, "sig"⟩ ∧
    (lib.verify envA "DPoP hdr.pay.sig" 86400).1 =
      Except.ok ⟨⟨"RS256"⟩, payloadA, "sig"⟩ ∧
    payloadA.webid = some (JVal.jstr "https://alice.example/profile") :=
  valid_token_returns_claimed_webid envA "DPoP hdr.pay.sig" 86400 "hdr" "pay" "sig"
    "https://idp.example/" "https://alice.example/profile" payloadA
    ⟨"https", "idp.example", "/", ""⟩ ⟨"https", "alice.example", "/profile", ""⟩
    ["https://idp.example/"] ⟨"RS256"⟩ "keys" 1000 2000
    rfl rfl rfl rfl rfl rfl rfl rfl rfl rfl rfl rfl rfl rfl rfl rfl rfl rfl rfl rfl

/-! C3 -/

/-- C3: the cryptographic verification step is always invoked with the fixed policy
(audience solid, algorithm list the fixed asymmetric allow-list), the allow-list
excludes every symmetric scheme, and a token whose header algorithm is symmetric
fails verification in both verifiers even when the signature oracle accepts it. -/
theorem fixed_policy_and_symmetric_rejected :
    (∀ (env : Env) (h : String) (a : Int) (t : String) (pol : VerifyPolicy),
        Event.cryptoVerify t pol ∈ (algorithm.verifySolidAccessToken env h a).2 →
          pol = accessTokenPolicy a) ∧
    (∀ (env : Env) (h : String) (a : Int) (t : String) (pol : VerifyPolicy),
        Event.cryptoVerify t pol ∈ (lib.verify env h a).2 → pol = accessTokenPolicy a) ∧
    (∀ a, (accessTokenPolicy a).audience = "solid" ∧
        (accessTokenPolicy a).algorithms = asymetricCryptographicAlgorithm) ∧
    (∀ s, symmetricAlgorithms.contains s = true →
        asymetricCryptographicAlgorithm.contains s = false) ∧
    (∀ (env : Env) (h : String) (a : Int) (s0 seg s2 si sw : String) (p : RawPayload)
        (iu wu : ParsedURL) (l : List String) (hd : JWTHeader) (ks : KeySet),
      splitDots (value h) = [s0, seg, s2] →
      env.decodePayload seg = some p →
      p.iss = some (JVal.jstr si) →
      p.webid = some (JVal.jstr sw) →
      parseURL si = some iu →
      parseURL sw = some wu →
      verifySecureUriClaim wu.toString = Except.ok () →
      verifySecureUriClaim iu.toString = Except.ok () →
      (iu.scheme = "https" || iu.scheme = "http") = true →
      (wu.scheme = "https" || wu.scheme = "http") = true →
      env.getIssuers wu.toString = Except.ok l →
      l.contains iu.toString = true →
      env.getKeySet iu = Except.ok ks →
      env.decodeHeader s0 = some hd →
      symmetricAlgorithms.contains hd.alg = true →
      (algorithm.verifySolidAccessToken env h a).1 =
        Except.error VerifyError.signatureOrClaimInvalid ∧
      (lib.verify env h a).1 = Except.error VerifyError.signatureOrClaimInvalid) := by
  refine ⟨?_, ?_, fun a => ⟨rfl, rfl⟩, fun s hs => symmetric_not_allowed s hs, ?_⟩
  · intro env h a t pol hmem
    exact algorithm_trace_policy env (value h) a t pol hmem
  · intro env h a t pol hmem
    exact lib_trace_policy env (value h) a t pol hmem
  · intro env h a s0 seg s2 si sw p iu wu l hd ks hsplit hdec hiss hwebid hpi hpw hgw
      hgi hsi hsw hres hmem hks hhd hsym
    have hseg : (splitDots (value h))[1]? = some seg := by rw [hsplit]; rfl
    have hmem2 : iu.toString ∈ l := by simpa using hmem
    have hnotallowed : hd.alg ∉ asymetricCryptographicAlgorithm := by
      simpa using symmetric_not_allowed hd.alg hsym
    constructor
    · simp [algorithm.verifySolidAccessToken, algorithm.verifySolidAccessTokenValue,
        algorithm.verifiableClaims, verifySolidAccessTokenIssuer, jwtVerify,
        accessTokenPolicy, hseg, hsplit, hdec, hiss, hwebid, hpi, hpw, hgw, hgi, hres,
        hmem2, hks, hhd, hnotallowed]
    · simp [lib.verify, lib.verifyValue, lib.verifiableClaims, lib.urlClaim, jwtVerify,
        accessTokenPolicy, hseg, hsplit, hdec, hiss, hwebid, hpi, hpw, hsi, hsw, hres,
        hmem2, hks, hhd, hnotallowed]

/-- Witness for C3: a token presenting the symmetric HS256 header algorithm is
rejected in both verifiers although its signature oracle accepts everything. -/
theorem fixed_policy_and_symmetric_rejected_witness :
    (algorithm.verifySolidAccessToken envC3 "Bearer hdr.pay.sig" 86400).1 =
      Except.error VerifyError.signatureOrClaimInvalid ∧
    (lib.verify envC3 "Bearer hdr.pay.sig" 86400).1 =
      Except.error VerifyError.signatureOrClaimInvalid :=
  fixed_policy_and_symmetric_rejected.2.2.2.2 envC3 "Bearer hdr.pay.sig" 86400
    "hdr" "pay" "sig" "https://idp.example/" "https://alice.example/profile" payloadA
    ⟨"https", "idp.example", "/", ""⟩ ⟨"https", "alice.example", "/profile", ""⟩
    ["https://idp.example/"] ⟨"HS256"⟩ "keys"
    rfl rfl rfl rfl rfl rfl rfl rfl rfl rfl rfl rfl rfl rfl rfl
